import Mathlib

/-!
# Verification of the cube-lamp ESP32 NeoPixel controller (`main.py`)

Shallow embedding of the MicroPython program `main.py` (an ESP32-C3 NeoPixel
controller with two buttons and an optional SSD1306 OLED status display) and
proofs about its input sampler (`check_buttons`), display power management
(`display_sleep` / `display_wake`), color algorithms (`wheel`, the Aurora
palette blend, the Fire heat simulation), brightness scaling
(`set_color` / `set_all`) and the pacing/yield structure of the effects.

Modelling conventions:
* Python integers are `ℤ` (or `ℕ` where the source value is provably
  non-negative and no subtraction can underflow); Python `//` (floor
  division) on the non-negative operands used here is `Int.fdiv` / `Nat.div`.
* Python floats that only carry exactly-representable small rationals
  (`0.5`, `step/50`, and the brightness constant `0.3` applied to integers
  `0..255`, for which `int(c * 0.3) = ⌊3*c/10⌋` holds exactly in IEEE
  double precision) are modelled as `ℚ`; `int(·)` is truncation toward
  zero (`py_int`).
* `time.ticks_ms`/`time.ticks_diff` are modelled as a monotone `ℤ` clock
  with ordinary subtraction.
* Hardware reads (pin levels, `random.randint` draws) are universally
  quantified inputs; hardware writes (NeoPixel buffer, OLED) are recorded
  in the model state or abstracted away when no claim depends on them.
-/

/-- `LED_COUNT = 66`, the number of NeoPixels (`main.py` line 43). -/
def LED_COUNT : ℕ := 66

/-- `debounce_delay = 200` milliseconds (`main.py` line 86). -/
def debounce_delay : ℤ := 200

/-- `DISPLAY_TIMEOUT = 30000` milliseconds (`main.py` line 89). -/
def DISPLAY_TIMEOUT : ℤ := 30000

/-- The nine predefined `(R, G, B)` colors (`main.py` lines 98-108). -/
def colors : List (ℤ × ℤ × ℤ) :=
  [(255, 0, 0), (0, 255, 0), (0, 0, 255), (255, 255, 0), (255, 0, 255),
   (0, 255, 255), (255, 128, 0), (128, 0, 255), (255, 255, 255)]

/-- The ten effect names (`main.py` lines 113-124); only the length is
used by the mode-cycling logic. -/
def effect_names : List String :=
  ["All On", "Rainbow", "Color Wipe", "Chase", "Pulse",
   "Runner", "Aurora", "Fire", "Breathing", "Off"]

/-- Python `int(·)` applied to a rational: truncation toward zero. -/
def py_int (q : ℚ) : ℤ := if q < 0 then -⌊-q⌋ else ⌊q⌋

/-- The per-channel scaling performed by `set_color` / `set_all`
(`main.py` lines 194-209): `int(c * brightness)`. -/
def scale_channel (c : ℤ) (brightness : ℚ) : ℤ := py_int ((c : ℚ) * brightness)

/-- `wheel(pos)` (`main.py` lines 211-220): the three-segment
piecewise-linear color wheel with breakpoints 85 and 170. -/
def wheel (pos : ℤ) : ℤ × ℤ × ℤ :=
  if pos < 85 then (pos * 3, 255 - pos * 3, 0)
  else if pos < 170 then (255 - (pos - 85) * 3, 0, (pos - 85) * 3)
  else (0, (pos - 170) * 3, 255 - (pos - 170) * 3)

/-- The sequence of `brightness` arguments that `effect_pulse`
(`main.py` lines 317-333) passes to `set_all`: for `brightness` in
`range(50)` then in `range(50, 0, -1)`, `bright = brightness / steps`
and the argument is `bright * 0.5`.  Note the passed argument *replaces*
`set_all`'s default `0.3`. -/
def effect_pulse_brightnesses : List ℚ :=
  ((List.range 50).map (fun s : ℕ => ((s : ℚ) / 50) * (1 / 2))) ++
  ((List.range 50).map (fun k : ℕ => (((50 - k : ℕ) : ℚ) / 50) * (1 / 2)))

/-- The Aurora palette `aurora_colors` (`main.py` lines 356-364). -/
def aurora_colors : List (ℕ × ℕ × ℕ) :=
  [(0, 255, 80), (0, 255, 180), (0, 200, 255), (0, 100, 255),
   (80, 0, 255), (150, 0, 200), (0, 180, 130)]

/-- One blended channel of the Aurora effect (`main.py` lines 377-379):
`(c1 * (256 - frac) + c2 * frac) >> 8`.  All quantities are non-negative
Python ints, so `ℕ` arithmetic is exact (`frac < 256` at the call site,
so the subtraction cannot underflow). -/
def aurora_channel (c1 c2 frac : ℕ) : ℕ := (c1 * (256 - frac) + c2 * frac) >>> 8

/-- The scaled RGB triple that `effect_aurora` (`main.py` lines 370-380)
writes to pixel `i` at palette offset `offset`:
`np[i] = (int(r * 0.3), int(g * 0.3), int(b * 0.3))` after palette
interpolation. -/
def aurora_pixel (i offset : ℕ) : ℤ × ℤ × ℤ :=
  let palette_len := aurora_colors.length
  let pos := ((i * palette_len * 256) / LED_COUNT + offset) % (palette_len * 256)
  let idx := pos / 256
  let frac := pos % 256
  let c1 := aurora_colors.getD idx (0, 0, 0)
  let c2 := aurora_colors.getD ((idx + 1) % palette_len) (0, 0, 0)
  let r := aurora_channel c1.1 c2.1 frac
  let g := aurora_channel c1.2.1 c2.2.1 frac
  let b := aurora_channel c1.2.2 c2.2.2 frac
  (scale_channel (r : ℤ) (3 / 10), scale_channel (g : ℤ) (3 / 10),
   scale_channel (b : ℤ) (3 / 10))

/-- The heat-to-color map of `effect_fire` (`main.py` lines 405-415),
before brightness scaling. -/
def fire_color (t : ℤ) : ℤ × ℤ × ℤ :=
  if t > 170 then (255, 255, min 255 ((t - 170) * 3))
  else if t > 85 then (255, min 255 ((t - 85) * 3), 0)
  else (min 255 (t * 3), 0, 0)

/-- The scaled RGB triple `effect_fire` writes for heat `t`
(`main.py` line 416): `(int(r * 0.3), int(g * 0.3), int(b * 0.3))`. -/
def fire_pixel (t : ℤ) : ℤ × ℤ × ℤ :=
  let c := fire_color t
  (scale_channel c.1 (3 / 10), scale_channel c.2.1 (3 / 10),
   scale_channel c.2.2 (3 / 10))

/-- Cooling phase of one `effect_fire` frame (`main.py` lines 395-396):
`heat[i] = max(0, heat[i] - draw_i)` where `draw_i` is this frame's
`random.randint(0, ((cooling * 10) // LED_COUNT) + 2)` draw for cell `i`
(with `cooling = 10` the upper bound is `100 // 66 + 2 = 3`). -/
def fire_cool (heat draws : List ℤ) : List ℤ :=
  List.zipWith (fun h d => max 0 (h - d)) heat draws

/-- One assignment of the upward-diffusion loop (`main.py` line 399):
`heat[i] = (heat[i-1] + heat[i-2] + heat[i-2]) // 3`. -/
def fire_diffuse_step (heat : List ℤ) (i : ℕ) : List ℤ :=
  heat.set i ((heat.getD (i - 1) 0 + heat.getD (i - 2) 0 + heat.getD (i - 2) 0).fdiv 3)

/-- The diffusion loop `for i in range(LED_COUNT - 1, 1, -1)`
(`main.py` lines 398-399), running `i` down from the given start to `2`. -/
def fire_diffuse_down (heat : List ℤ) : ℕ → List ℤ
  | 0 => heat
  | 1 => heat
  | n + 2 => fire_diffuse_down (fire_diffuse_step heat (n + 2)) (n + 1)

/-- The full diffusion phase of one `effect_fire` frame. -/
def fire_diffuse (heat : List ℤ) : List ℤ := fire_diffuse_down heat (LED_COUNT - 1)

/-- Spark-injection phase of one `effect_fire` frame (`main.py`
lines 401-403): when the spark draw fires, `heat[y] = min(255, heat[y] + amt)`
with `y = random.randint(0, min(7, LED_COUNT - 1))` and
`amt = random.randint(160, 255)`. -/
def fire_spark (heat : List ℤ) (sparkOn : Bool) (y : ℕ) (amt : ℤ) : List ℤ :=
  if sparkOn then heat.set y (min 255 (heat.getD y 0 + amt)) else heat

/-- All entries of a heat list lie in the byte range `[0, 255]`. -/
def heat_bounded (l : List ℤ) : Prop := ∀ x ∈ l, 0 ≤ x ∧ x ≤ 255

/-! ## Timing skeletons of the effect step functions

Each effect's single top-level invocation is abstracted to its sequence of
pacing events, in program order: `check` marks an invocation of
`check_buttons` (the yield/button-check predicate) and `sleep d` a
`time.sleep` of `d` milliseconds.  Pixel writes take no modelled time.
These traces describe a full, uninterrupted run; an early return on a
pressed button only removes a suffix and can only shorten gaps. -/

inductive TEvent where
  | check : TEvent
  | sleep : ℕ → TEvent
deriving DecidableEq

/-- `n` repetitions of a loop body that first calls `check_buttons` and
ends with a `d`-millisecond pacing sleep. -/
def frames (d : ℕ) : ℕ → List TEvent
  | 0 => []
  | n + 1 => TEvent.check :: TEvent.sleep d :: frames d n

/-- `effect_all_on` (`main.py` lines 271-275): one `set_all` and a 50 ms
sleep; it never calls `check_buttons` itself. -/
def all_on_trace : List TEvent := [TEvent.sleep 50]

/-- `effect_rainbow_cycle` (`main.py` lines 277-286): 255 frames, each a
`check_buttons` call, 66 pixel writes, and a 10 ms sleep. -/
def rainbow_trace : List TEvent := frames 10 255

/-- `effect_color_wipe` (`main.py` lines 288-301): 66 lit steps at 50 ms
with a `check_buttons` call each, a 500 ms hold, then 66 clearing steps
at 50 ms with a `check_buttons` call each. -/
def color_wipe_trace : List TEvent :=
  frames 50 LED_COUNT ++ (TEvent.sleep 500 :: frames 50 LED_COUNT)

/-- One outer cycle of `effect_theater_chase` (`main.py` lines 306-315):
a `check_buttons` call, then three phases of light/50 ms/clear/50 ms. -/
def chase_cycle : List TEvent := TEvent.check :: List.replicate 6 (TEvent.sleep 50)

/-- `effect_theater_chase`: 10 outer cycles. -/
def theater_chase_trace : List TEvent := (List.replicate 10 chase_cycle).flatten

/-- `effect_pulse` (`main.py` lines 317-333): 50 ramp-up steps then 50
ramp-down steps, each a `check_buttons` call and a 20 ms sleep. -/
def pulse_trace : List TEvent := frames 20 50 ++ frames 20 50

/-- `effect_running_light` (`main.py` lines 335-351): 66 forward steps
then 66 backward steps, each a `check_buttons` call and a 50 ms sleep. -/
def running_light_trace : List TEvent := frames 50 LED_COUNT ++ frames 50 LED_COUNT

/-- `effect_aurora` (`main.py` lines 353-383), `n` iterations of its
`while True` loop: a `check_buttons` call then a 30 ms sleep. -/
def aurora_trace (n : ℕ) : List TEvent := frames 30 n

/-- `effect_fire` (`main.py` lines 385-418), `n` loop iterations:
a `check_buttons` call then a 20 ms sleep. -/
def fire_trace (n : ℕ) : List TEvent := frames 20 n

/-- `effect_breathing` (`main.py` lines 420-433), `n` loop iterations:
a `check_buttons` call then a 20 ms sleep. -/
def breathing_trace (n : ℕ) : List TEvent := frames 20 n

/-- `effect_off` (`main.py` lines 435-438): `clear()` and a 100 ms sleep;
no `check_buttons` call. -/
def off_trace : List TEvent := [TEvent.sleep 100]

/-- Accumulate sleep time after a `check`; emit the accumulated gap at
each subsequent `check`. -/
def gaps_from : List TEvent → ℕ → List ℕ
  | [], _ => []
  | TEvent.sleep d :: rest, acc => gaps_from rest (acc + d)
  | TEvent.check :: rest, acc => acc :: gaps_from rest 0

/-- The sleep totals strictly between consecutive `check` events. -/
def check_gaps : List TEvent → List ℕ
  | [] => []
  | TEvent.sleep _ :: rest => check_gaps rest
  | TEvent.check :: rest => gaps_from rest 0

/-- The longest stretch of modelled wall time between two consecutive
`check_buttons` invocations in a trace. -/
def max_gap (l : List TEvent) : ℕ := (check_gaps l).foldr max 0

/-- The number of `check_buttons` invocations in a trace. -/
def count_checks (l : List TEvent) : ℕ := l.count TEvent.check

/-! ## The input sampler and display power management

`check_buttons` (`main.py` lines 222-268) together with `display_sleep`
(lines 126-137) and `display_wake` (lines 139-151).  The mutable
module-level globals touched by these functions are gathered in `CState`;
the OLED presence flag `oled is not None` is the constant parameter
`oledPresent` (it never changes after startup).  `display_wake` reads
`time.ticks_ms()` again, but within one `check_buttons` call it is the
same tick as `current_time`, and `check_buttons` overwrites
`last_activity_time` with `current_time` immediately afterwards anyway. -/

structure CState where
  button1_last_state : Bool
  button2_last_state : Bool
  last_button1_time : ℤ
  last_button2_time : ℤ
  last_activity_time : ℤ
  display_sleeping : Bool
  current_effect : ℕ
  current_color_index : ℕ
  strip : List (ℤ × ℤ × ℤ)
deriving DecidableEq

/-- `clear()` (`main.py` lines 188-192): every strip entry becomes
`(0, 0, 0)`. -/
def clear_strip : List (ℤ × ℤ × ℤ) := List.replicate LED_COUNT (0, 0, 0)

/-- `display_sleep()` (`main.py` lines 126-137).  Returns the new state
and whether a Sleep transition (`oled.poweroff()`) was performed. -/
def display_sleep_fn (oledPresent : Bool) (s : CState) : CState × Bool :=
  if oledPresent = false || s.display_sleeping then (s, false)
  else ({ s with display_sleeping := true }, true)

/-- `display_wake()` (`main.py` lines 139-151).  Returns the new state
and whether a Wake transition (`oled.poweron()` plus immediate redraw)
was performed; with no display attached the function returns early and
changes nothing. -/
def display_wake_fn (oledPresent : Bool) (now : ℤ) (s : CState) : CState × Bool :=
  if oledPresent = false then (s, false)
  else ({ s with display_sleeping := false, last_activity_time := now },
        s.display_sleeping)

/-- The debounced falling-edge acceptance test used for both buttons
(`main.py` lines 234-235 and 250-251): raw sample low, previous sample
high, and strictly more than `debounce_delay` ms since that button's
last accepted event. -/
def falling_accept (raw lastRaw : Bool) (now lastTime : ℤ) : Bool :=
  !raw && lastRaw && decide (now - lastTime > debounce_delay)

/-- Outcome of one button's handling inside `check_buttons`. -/
structure PhaseOut where
  state : CState
  wake : Bool
  acted : Bool
deriving DecidableEq

/-- Button 1 (Mode) handling (`main.py` lines 233-246).  On an accepted
press: wake the display if it is sleeping, otherwise advance the effect,
clear the strip and redraw; then stamp the activity and debounce timers.
The unconditional trailing `button1_last_state = button1_state` is folded
into every branch. -/
def button1_phase (oledPresent : Bool) (t : ℤ) (b1 : Bool) (s : CState) : PhaseOut :=
  if falling_accept b1 s.button1_last_state t s.last_button1_time then
    if s.display_sleeping then
      let p := display_wake_fn oledPresent t s
      { state := { p.1 with last_activity_time := t, last_button1_time := t,
                            button1_last_state := b1 },
        wake := p.2, acted := false }
    else
      { state := { s with current_effect := (s.current_effect + 1) % effect_names.length,
                          strip := clear_strip,
                          last_activity_time := t, last_button1_time := t,
                          button1_last_state := b1 },
        wake := false, acted := true }
  else { state := { s with button1_last_state := b1 }, wake := false, acted := false }

/-- Button 2 (Color) handling (`main.py` lines 249-261): identical shape,
but the action advances the color index and does not clear the strip. -/
def button2_phase (oledPresent : Bool) (t : ℤ) (b2 : Bool) (s : CState) : PhaseOut :=
  if falling_accept b2 s.button2_last_state t s.last_button2_time then
    if s.display_sleeping then
      let p := display_wake_fn oledPresent t s
      { state := { p.1 with last_activity_time := t, last_button2_time := t,
                            button2_last_state := b2 },
        wake := p.2, acted := false }
    else
      { state := { s with current_color_index := (s.current_color_index + 1) % colors.length,
                          last_activity_time := t, last_button2_time := t,
                          button2_last_state := b2 },
        wake := false, acted := true }
  else { state := { s with button2_last_state := b2 }, wake := false, acted := false }

/-- Display-timeout check at the end of `check_buttons` (`main.py`
lines 264-266). -/
def timeout_phase (oledPresent : Bool) (t : ℤ) (s : CState) : CState × Bool :=
  if (!s.display_sleeping) && oledPresent
      && decide (t - s.last_activity_time > DISPLAY_TIMEOUT) then
    display_sleep_fn oledPresent s
  else (s, false)

/-- Everything one `check_buttons` call produces: the updated globals,
the Python return value `button_pressed`, and observation flags for each
action performed during the call. -/
structure CResult where
  state : CState
  button_pressed : Bool
  accepted1 : Bool
  accepted2 : Bool
  wake1 : Bool
  wake2 : Bool
  effect_changed : Bool
  color_changed : Bool
  did_sleep : Bool
deriving DecidableEq

/-- `check_buttons()` (`main.py` lines 222-268): Button 1 handling, then
Button 2 handling on the resulting state, then the display-timeout
check. -/
def check_buttons_fn (oledPresent : Bool) (t : ℤ) (b1 b2 : Bool) (s : CState) : CResult :=
  let p1 := button1_phase oledPresent t b1 s
  let p2 := button2_phase oledPresent t b2 p1.state
  let q := timeout_phase oledPresent t p2.state
  { state := q.1,
    button_pressed := falling_accept b1 s.button1_last_state t s.last_button1_time
      || falling_accept b2 p1.state.button2_last_state t p1.state.last_button2_time,
    accepted1 := falling_accept b1 s.button1_last_state t s.last_button1_time,
    accepted2 := falling_accept b2 p1.state.button2_last_state t p1.state.last_button2_time,
    wake1 := p1.wake, wake2 := p2.wake,
    effect_changed := p1.acted, color_changed := p2.acted,
    did_sleep := q.2 }

/-- Iterated `check_buttons` over a list of `(tick, raw1, raw2)` input
samples, as performed by the main loop and by every effect's yield
points. -/
def run_checks (oledPresent : Bool) (s : CState) : List (ℤ × Bool × Bool) → CState
  | [] => s
  | (t, b1, b2) :: rest =>
      run_checks oledPresent (check_buttons_fn oledPresent t b1 b2 s).state rest

/-! ## Pacing-gap lemmas (claim C1) -/

theorem foldr_max_le {d : ℕ} : ∀ l : List ℕ, (∀ g ∈ l, g ≤ d) → l.foldr max 0 ≤ d
  | [], _ => Nat.zero_le d
  | g :: l, h => by
      simp only [List.foldr_cons]
      exact max_le (h g (List.mem_cons_self g l))
        (foldr_max_le l fun x hx => h x (List.mem_cons_of_mem g hx))

theorem gaps_from_frames_le (d : ℕ) :
    ∀ n acc : ℕ, ∀ g ∈ gaps_from (frames d n) acc, g ≤ max acc d := by
  intro n
  induction n with
  | zero => intro acc g hg; simp [frames, gaps_from] at hg
  | succ m ih =>
      intro acc g hg
      simp only [frames, gaps_from, Nat.zero_add, List.mem_cons] at hg
      rcases hg with rfl | hg
      · exact le_max_left _ _
      · have := ih d g hg
        simp only [max_self] at this
        exact le_trans this (le_max_right acc d)

theorem max_gap_frames_le (d n : ℕ) : max_gap (frames d n) ≤ d := by
  cases n with
  | zero => simp [frames, max_gap, check_gaps]
  | succ m =>
      have h : check_gaps (frames d (m + 1)) = gaps_from (frames d m) d := by
        simp [frames, check_gaps, gaps_from]
      rw [max_gap, h]
      exact foldr_max_le _ fun g hg => by
        have := gaps_from_frames_le d m d g hg
        simpa using this

set_option maxRecDepth 10000

/-- **C1** counterexample: the claim that every effect keeps the stretch
of wall time between consecutive `check_buttons` invocations at or below
~50 ms fails on `effect_color_wipe`, whose longest uninterrupted pacing
stretch is 550 ms (the 50 ms sleep after the last lit pixel plus the
500 ms hold before the clearing pass rechecks). -/
theorem color_wipe_gap_exceeds_50ms :
    max_gap color_wipe_trace = 550 ∧ ¬ max_gap color_wipe_trace ≤ 50 := by decide

/-- **C1** (amended): the inter-check pacing gaps of the effects are:
ColorWipe 550 ms (50 ms step plus 500 ms hold) and TheaterChase 300 ms
(the three light/clear phases run between checks) — both far above 50 ms —
while RainbowCycle (10 ms), Pulse (20 ms), RunningLight (50 ms),
Aurora (≤ 30 ms), Fire and Breathing (≤ 20 ms) stay at or below 50 ms,
and AllOn and Off never invoke the check inside their step at all. -/
theorem effect_yield_gap_profile :
    max_gap color_wipe_trace = 550 ∧
    max_gap theater_chase_trace = 300 ∧
    max_gap rainbow_trace = 10 ∧
    max_gap pulse_trace = 20 ∧
    max_gap running_light_trace = 50 ∧
    (∀ n, max_gap (aurora_trace n) ≤ 30) ∧
    (∀ n, max_gap (fire_trace n) ≤ 20) ∧
    (∀ n, max_gap (breathing_trace n) ≤ 20) ∧
    count_checks all_on_trace = 0 ∧ count_checks off_trace = 0 :=
  ⟨by decide, by decide, by decide, by decide, by decide,
   fun n => max_gap_frames_le 30 n, fun n => max_gap_frames_le 20 n,
   fun n => max_gap_frames_le 20 n, by decide, by decide⟩

/-! ## The color wheel (claim C8) -/

/-- **C8** counterexample: at the first segment boundary the wheel jumps
by 3 per channel, not by at most 1: `wheel(84) = (252, 3, 0)` while
`wheel(85) = (255, 0, 0)`. -/
theorem wheel_boundary_jump_is_3 :
    wheel 84 = (252, 3, 0) ∧ wheel 85 = (255, 0, 0) ∧
    ¬ ((wheel 85).1 - (wheel 84).1 ≤ 1) := by decide

/-- **C8** (amended): `wheel` is the three-segment piecewise-linear color
wheel with breakpoints 85 and 170 and slopes `pos*3` / `255 - pos*3`;
`wheel(0) = (0, 255, 0)`, consecutive outputs at the segment boundaries
differ by 3 per channel (the per-position slope), and `wheel(255)` equals
`wheel(0)` exactly (wrap-around). -/
theorem wheel_endpoints_and_boundary :
    wheel 0 = (0, 255, 0) ∧
    wheel 84 = (252, 3, 0) ∧ wheel 85 = (255, 0, 0) ∧
    wheel 169 = (3, 0, 252) ∧ wheel 170 = (0, 0, 255) ∧
    wheel 255 = (0, 255, 0) ∧ wheel 255 = wheel 0 := by decide

/-! ## The Pulse envelope (claim C3) -/

/-- **C3** counterexample: the peak brightness argument `effect_pulse`
passes to `set_all` is `1/2` (at the first ramp-down step,
`bright = 50/50` and the argument is `bright * 0.5`), and `set_all` uses
it *instead of* the default `0.3`: the peak red channel for color 255 is
`int(255 * 0.5) = 127`, not the `int(255 * 0.5 * 0.3) = 38` the claimed
extra `0.3` multiplier would give. -/
theorem pulse_peak_scaling_not_015 :
    (1 : ℚ) / 2 ∈ effect_pulse_brightnesses ∧
    scale_channel 255 (1 / 2) = 127 ∧
    py_int ((255 : ℚ) * ((1 / 2) * (3 / 10))) = 38 ∧
    scale_channel 255 (1 / 2) ≠ py_int ((255 : ℚ) * ((1 / 2) * (3 / 10))) := by
  have h127 : scale_channel 255 (1 / 2) = 127 := by
    rw [scale_channel, py_int, if_neg (by norm_num), Int.floor_eq_iff]
    constructor <;> norm_num
  have h38 : py_int ((255 : ℚ) * ((1 / 2) * (3 / 10))) = 38 := by
    rw [py_int, if_neg (by norm_num), Int.floor_eq_iff]
    constructor <;> norm_num
  refine ⟨?_, h127, h38, by rw [h127, h38]; decide⟩
  refine List.mem_append_right _ (List.mem_map.mpr ⟨0, List.mem_range.mpr ?_, ?_⟩) <;>
    norm_num

/-- **C3** (amended): `effect_pulse` runs exactly 50 ramp-up steps
followed by 50 ramp-down steps with per-step envelope
`(step/50) * 0.5 = step/100`; that envelope is passed to `set_all` as its
`brightness` argument, *replacing* the default global `0.3`, so the net
peak channel scaling is `0.5`: the peak channel value for a 255 channel
is 127. -/
theorem pulse_envelope_profile :
    effect_pulse_brightnesses.length = 100 ∧
    (∀ s : ℕ, ((s : ℚ) / 50) * (1 / 2) = (s : ℚ) / 100) ∧
    (∀ q ∈ effect_pulse_brightnesses, 0 ≤ q ∧ q ≤ 1 / 2) ∧
    (1 : ℚ) / 2 ∈ effect_pulse_brightnesses ∧
    scale_channel 255 (1 / 2) = 127 := by
  refine ⟨by simp [effect_pulse_brightnesses], fun s => by ring, ?_, ?_, ?_⟩
  · intro q hq
    rcases List.mem_append.mp hq with h | h <;> rcases List.mem_map.mp h with ⟨s, hs, rfl⟩
    · have h50 : (s : ℚ) ≤ 50 := by
        have := Nat.le_of_lt_succ (List.mem_range.mp hs)
        exact_mod_cast le_trans this (by norm_num)
      constructor
      · positivity
      · rw [div_mul_eq_mul_div, div_le_div_iff₀ (by norm_num) (by norm_num)]
        nlinarith
    · have h50 : ((50 - s : ℕ) : ℚ) ≤ 50 := by exact_mod_cast Nat.sub_le 50 s
      constructor
      · positivity
      · rw [div_mul_eq_mul_div, div_le_div_iff₀ (by norm_num) (by norm_num)]
        nlinarith
  · refine List.mem_append_right _ (List.mem_map.mpr ⟨0, List.mem_range.mpr ?_, ?_⟩) <;>
      norm_num
  · rw [scale_channel, py_int, if_neg (by norm_num), Int.floor_eq_iff]
    constructor <;> norm_num

/-! ## Channel range invariants (claim C6) -/

/-- A channel value is a legal NeoPixel byte. -/
def channel_in_range (v : ℤ) : Prop := 0 ≤ v ∧ v ≤ 255

/-- All three channels of an RGB triple are legal NeoPixel bytes. -/
def triple_in_range (p : ℤ × ℤ × ℤ) : Prop :=
  channel_in_range p.1 ∧ channel_in_range p.2.1 ∧ channel_in_range p.2.2

theorem py_int_eq_floor {q : ℚ} (h : 0 ≤ q) : py_int q = ⌊q⌋ := by
  rw [py_int, if_neg (not_lt.mpr h)]

theorem scale_channel_in_range {c : ℤ} {br : ℚ} (hc0 : 0 ≤ c) (hc : c ≤ 255)
    (hb0 : 0 ≤ br) (hb : br ≤ 1) : channel_in_range (scale_channel c br) := by
  have hcq : (0 : ℚ) ≤ (c : ℚ) := by exact_mod_cast hc0
  have hq0 : (0 : ℚ) ≤ (c : ℚ) * br := mul_nonneg hcq hb0
  have hq : (c : ℚ) * br ≤ 255 := by
    calc (c : ℚ) * br ≤ (c : ℚ) * 1 := mul_le_mul_of_nonneg_left hb hcq
      _ = (c : ℚ) := mul_one _
      _ ≤ 255 := by exact_mod_cast hc
  rw [scale_channel, py_int_eq_floor hq0]
  refine ⟨Int.floor_nonneg.mpr hq0, ?_⟩
  calc ⌊(c : ℚ) * br⌋ ≤ ⌊(255 : ℚ)⌋ := Int.floor_le_floor hq
    _ = 255 := by norm_num

theorem wheel_in_range {pos : ℤ} (h0 : 0 ≤ pos) (h255 : pos ≤ 255) :
    triple_in_range (wheel pos) := by
  rw [wheel]
  simp only [triple_in_range, channel_in_range]
  split_ifs <;> dsimp only <;>
    exact ⟨⟨by omega, by omega⟩, ⟨by omega, by omega⟩, ⟨by omega, by omega⟩⟩

/-- `List.getD` preserves any property holding for every member and for
the default. -/
theorem getD_prop {α : Type} (P : α → Prop) (d : α) (hd : P d) :
    ∀ (l : List α) (n : ℕ), (∀ x ∈ l, P x) → P (l.getD n d)
  | [], n, _ => by simpa [List.getD] using hd
  | a :: l, 0, h => by simpa using h a (List.mem_cons_self a l)
  | a :: l, n + 1, h => by
      simpa using getD_prop P d hd l n fun x hx => h x (List.mem_cons_of_mem a hx)

theorem aurora_channel_le {c1 c2 frac : ℕ} (h1 : c1 ≤ 255) (h2 : c2 ≤ 255)
    (hf : frac ≤ 256) : aurora_channel c1 c2 frac ≤ 255 := by
  rw [aurora_channel, Nat.shiftRight_eq_div_pow]
  have hsum : c1 * (256 - frac) + c2 * frac ≤ 255 * (256 - frac) + 255 * frac :=
    Nat.add_le_add (Nat.mul_le_mul_right _ h1) (Nat.mul_le_mul_right _ h2)
  have h3 : 255 * (256 - frac) + 255 * frac ≤ 255 * 256 := by
    rw [← Nat.mul_add]
    exact Nat.mul_le_mul_left _ (by omega)
  calc (c1 * (256 - frac) + c2 * frac) / 2 ^ 8 ≤ 255 * 256 / 2 ^ 8 :=
        Nat.div_le_div_right (le_trans hsum h3)
    _ = 255 := by norm_num

/-- The property of an Aurora palette entry that keeps blended channels
in range. -/
def palette_ok (p : ℕ × ℕ × ℕ) : Prop := p.1 ≤ 255 ∧ p.2.1 ≤ 255 ∧ p.2.2 ≤ 255

theorem aurora_blend_in_range {c1 c2 : ℕ × ℕ × ℕ} (h1 : palette_ok c1)
    (h2 : palette_ok c2) {frac : ℕ} (hf : frac ≤ 256) :
    triple_in_range
      ((aurora_channel c1.1 c2.1 frac : ℤ) |> fun r => (scale_channel r (3 / 10),
        scale_channel (aurora_channel c1.2.1 c2.2.1 frac : ℤ) (3 / 10),
        scale_channel (aurora_channel c1.2.2 c2.2.2 frac : ℤ) (3 / 10))) := by
  refine ⟨scale_channel_in_range (Int.natCast_nonneg _) ?_ (by norm_num) (by norm_num),
          scale_channel_in_range (Int.natCast_nonneg _) ?_ (by norm_num) (by norm_num),
          scale_channel_in_range (Int.natCast_nonneg _) ?_ (by norm_num) (by norm_num)⟩
  · exact_mod_cast aurora_channel_le h1.1 h2.1 hf
  · exact_mod_cast aurora_channel_le h1.2.1 h2.2.1 hf
  · exact_mod_cast aurora_channel_le h1.2.2 h2.2.2 hf

theorem aurora_pixel_in_range (i offset : ℕ) : triple_in_range (aurora_pixel i offset) := by
  have hall : ∀ p ∈ aurora_colors, palette_ok p := by
    intro p hp
    fin_cases hp <;> exact ⟨by decide, by decide, by decide⟩
  have hd : palette_ok (0, 0, 0) := ⟨by decide, by decide, by decide⟩
  simp only [aurora_pixel]
  exact aurora_blend_in_range
    (getD_prop palette_ok (0, 0, 0) hd aurora_colors _ hall)
    (getD_prop palette_ok (0, 0, 0) hd aurora_colors _ hall)
    (le_of_lt (Nat.mod_lt _ (by norm_num)))

theorem fire_color_in_range {t : ℤ} (h0 : 0 ≤ t) (h255 : t ≤ 255) :
    triple_in_range (fire_color t) := by
  rw [fire_color]
  simp only [triple_in_range, channel_in_range]
  split_ifs <;> dsimp only <;>
    exact ⟨⟨by omega, by omega⟩, ⟨by omega, by omega⟩, ⟨by omega, by omega⟩⟩

theorem fire_pixel_in_range {t : ℤ} (h0 : 0 ≤ t) (h255 : t ≤ 255) :
    triple_in_range (fire_pixel t) := by
  have hc := fire_color_in_range h0 h255
  simp only [fire_pixel]
  exact ⟨scale_channel_in_range hc.1.1 hc.1.2 (by norm_num) (by norm_num),
         scale_channel_in_range hc.2.1.1 hc.2.1.2 (by norm_num) (by norm_num),
         scale_channel_in_range hc.2.2.1 hc.2.2.2 (by norm_num) (by norm_num)⟩

/-- **C6** (confirmed): every channel value the program writes to the
strip after brightness scaling lies in `[0, 255]`, for any in-range raw
channel, any brightness in `[0, 1]` (covering the global `0.3`, the Pulse
envelope `≤ 0.5` and the Breathing envelope `≤ 0.3`), any wheel position
in `[0, 255]`, any Aurora LED index / palette offset, and any Fire heat
value in `[0, 255]`; the scaling is integer truncation (`py_int` agrees
with the floor on the non-negative products, e.g.
`int(255 * 0.3) = 76`, not the rounded `77`). -/
theorem channels_in_range :
    (∀ (c : ℤ) (br : ℚ), 0 ≤ c → c ≤ 255 → 0 ≤ br → br ≤ 1 →
      channel_in_range (scale_channel c br)) ∧
    (∀ q : ℚ, 0 ≤ q → py_int q = ⌊q⌋) ∧
    scale_channel 255 (3 / 10) = 76 ∧
    (∀ pos : ℤ, 0 ≤ pos → pos ≤ 255 → triple_in_range (wheel pos)) ∧
    (∀ c ∈ colors, triple_in_range c) ∧
    (∀ i offset : ℕ, triple_in_range (aurora_pixel i offset)) ∧
    (∀ t : ℤ, 0 ≤ t → t ≤ 255 → triple_in_range (fire_pixel t)) := by
  refine ⟨fun c br h1 h2 h3 h4 => scale_channel_in_range h1 h2 h3 h4,
          fun q h => py_int_eq_floor h, ?_,
          fun pos h1 h2 => wheel_in_range h1 h2, ?_,
          fun i offset => aurora_pixel_in_range i offset,
          fun t h1 h2 => fire_pixel_in_range h1 h2⟩
  · rw [scale_channel, py_int, if_neg (by norm_num), Int.floor_eq_iff]
    constructor <;> norm_num
  · intro c hc
    fin_cases hc <;> exact ⟨⟨by decide, by decide⟩, ⟨by decide, by decide⟩, ⟨by decide, by decide⟩⟩

/-- **C6** witness: the range invariant instantiated at concrete inputs:
the scaled full red channel, `wheel(100)`, the first predefined color,
Aurora pixel 0 at offset 0, and Fire heat 200. -/
theorem channels_in_range_witness :
    channel_in_range (scale_channel 255 (3 / 10)) ∧
    py_int (1 / 2) = ⌊(1 / 2 : ℚ)⌋ ∧
    triple_in_range (wheel 100) ∧
    triple_in_range ((255, 0, 0) : ℤ × ℤ × ℤ) ∧
    triple_in_range (aurora_pixel 0 0) ∧
    triple_in_range (fire_pixel 200) :=
  ⟨channels_in_range.1 255 (3 / 10) (by decide) (by decide) (by norm_num) (by norm_num),
   channels_in_range.2.1 (1 / 2) (by norm_num),
   channels_in_range.2.2.2.1 100 (by decide) (by decide),
   channels_in_range.2.2.2.2.1 (255, 0, 0) (by decide),
   channels_in_range.2.2.2.2.2.1 0 0,
   channels_in_range.2.2.2.2.2.2 200 (by decide) (by decide)⟩

/-! ## Fire heat invariants (claim C7) -/

theorem fire_cool_bounded : ∀ (heat draws : List ℤ), heat_bounded heat →
    (∀ d ∈ draws, 0 ≤ d) → heat_bounded (fire_cool heat draws)
  | [], _, _, _ => by simp [fire_cool, heat_bounded]
  | _ :: _, [], _, _ => by simp [fire_cool, heat_bounded]
  | h :: hs, d :: ds, hh, hd => by
      intro x hx
      simp only [fire_cool, List.zipWith_cons_cons, List.mem_cons] at hx
      rcases hx with rfl | hx
      · have h1 := hh h (List.mem_cons_self _ _)
        have h2 := hd d (List.mem_cons_self _ _)
        exact ⟨by omega, by omega⟩
      · exact fire_cool_bounded hs ds (fun z hz => hh z (List.mem_cons_of_mem _ hz))
          (fun z hz => hd z (List.mem_cons_of_mem _ hz)) x hx

theorem fire_diffuse_step_bounded {heat : List ℤ} (hh : heat_bounded heat) (i : ℕ) :
    heat_bounded (fire_diffuse_step heat i) := by
  intro x hx
  rcases List.mem_or_eq_of_mem_set hx with hx' | rfl
  · exact hh x hx'
  · obtain ⟨h1a, h1b⟩ := getD_prop (fun z : ℤ => 0 ≤ z ∧ z ≤ 255) 0 (by omega)
      heat (i - 1) hh
    obtain ⟨h2a, h2b⟩ := getD_prop (fun z : ℤ => 0 ≤ z ∧ z ≤ 255) 0 (by omega)
      heat (i - 2) hh
    rw [Int.fdiv_eq_ediv _ (by norm_num : (0 : ℤ) ≤ 3)]
    constructor <;> omega

theorem fire_diffuse_down_bounded : ∀ (n : ℕ) {heat : List ℤ}, heat_bounded heat →
    heat_bounded (fire_diffuse_down heat n)
  | 0, _, hh => hh
  | 1, _, hh => hh
  | n + 2, _, hh => fire_diffuse_down_bounded (n + 1) (fire_diffuse_step_bounded hh (n + 2))

theorem fire_spark_bounded {heat : List ℤ} (hh : heat_bounded heat) (sparkOn : Bool)
    (y : ℕ) {amt : ℤ} (h1 : 160 ≤ amt) (h2 : amt ≤ 255) :
    heat_bounded (fire_spark heat sparkOn y amt) := by
  rw [fire_spark]
  split
  · intro x hx
    rcases List.mem_or_eq_of_mem_set hx with hx' | rfl
    · exact hh x hx'
    · obtain ⟨hga, hgb⟩ := getD_prop (fun z : ℤ => 0 ≤ z ∧ z ≤ 255) 0 (by omega) heat y hh
      constructor <;> omega
  · exact hh

/-- **C7** (confirmed): in one `effect_fire` frame, starting from any
heat array with all entries in `[0, 255]` and for every outcome of the
random draws (cooling draws `0..3` per cell, optional spark of `160..255`
at any cell), every heat entry remains in `[0, 255]` after the cooling
step, after the upward-diffusion step, and after the spark-injection
step. -/
theorem fire_heat_bounds (heat draws : List ℤ) (hh : heat_bounded heat)
    (hd : ∀ d ∈ draws, 0 ≤ d ∧ d ≤ 3) (sparkOn : Bool) (y : ℕ) (amt : ℤ)
    (h1 : 160 ≤ amt) (h2 : amt ≤ 255) :
    heat_bounded (fire_cool heat draws) ∧
    heat_bounded (fire_diffuse (fire_cool heat draws)) ∧
    heat_bounded (fire_spark (fire_diffuse (fire_cool heat draws)) sparkOn y amt) := by
  have c1 := fire_cool_bounded heat draws hh fun d hdm => (hd d hdm).1
  have c2 : heat_bounded (fire_diffuse (fire_cool heat draws)) :=
    fire_diffuse_down_bounded _ c1
  exact ⟨c1, c2, fire_spark_bounded c2 sparkOn y h1 h2⟩

/-- **C7** witness: one full-length Fire frame from uniform heat 200,
maximal cooling draws, and a 255 spark injected at cell 0. -/
theorem fire_heat_bounds_witness :
    heat_bounded (fire_cool (List.replicate 66 200) (List.replicate 66 3)) ∧
    heat_bounded (fire_diffuse (fire_cool (List.replicate 66 200) (List.replicate 66 3))) ∧
    heat_bounded
      (fire_spark (fire_diffuse (fire_cool (List.replicate 66 200) (List.replicate 66 3)))
        true 0 255) :=
  fire_heat_bounds (List.replicate 66 200) (List.replicate 66 3)
    (fun x hx => by have := List.eq_of_mem_replicate hx; omega)
    (fun d hd => by have := List.eq_of_mem_replicate hd; omega)
    true 0 255 (by norm_num) (by norm_num)

/-! ## Scenario lemmas for `check_buttons` -/

theorem accepted1_eq (o : Bool) (t : ℤ) (b1 b2 : Bool) (s : CState) :
    (check_buttons_fn o t b1 b2 s).accepted1 =
      falling_accept b1 s.button1_last_state t s.last_button1_time := rfl

theorem accepted2_eq (o : Bool) (t : ℤ) (b1 b2 : Bool) (s : CState) :
    (check_buttons_fn o t b1 b2 s).accepted2 =
      falling_accept b2 (button1_phase o t b1 s).state.button2_last_state t
        (button1_phase o t b1 s).state.last_button2_time := rfl

theorem effect_changed_eq (o : Bool) (t : ℤ) (b1 b2 : Bool) (s : CState) :
    (check_buttons_fn o t b1 b2 s).effect_changed = (button1_phase o t b1 s).acted := rfl

theorem color_changed_eq (o : Bool) (t : ℤ) (b1 b2 : Bool) (s : CState) :
    (check_buttons_fn o t b1 b2 s).color_changed =
      (button2_phase o t b2 (button1_phase o t b1 s).state).acted := rfl

theorem wake1_eq (o : Bool) (t : ℤ) (b1 b2 : Bool) (s : CState) :
    (check_buttons_fn o t b1 b2 s).wake1 = (button1_phase o t b1 s).wake := rfl

theorem wake2_eq (o : Bool) (t : ℤ) (b1 b2 : Bool) (s : CState) :
    (check_buttons_fn o t b1 b2 s).wake2 =
      (button2_phase o t b2 (button1_phase o t b1 s).state).wake := rfl

theorem did_sleep_eq (o : Bool) (t : ℤ) (b1 b2 : Bool) (s : CState) :
    (check_buttons_fn o t b1 b2 s).did_sleep =
      (timeout_phase o t (button2_phase o t b2 (button1_phase o t b1 s).state).state).2 := rfl

theorem state_eq (o : Bool) (t : ℤ) (b1 b2 : Bool) (s : CState) :
    (check_buttons_fn o t b1 b2 s).state =
      (timeout_phase o t (button2_phase o t b2 (button1_phase o t b1 s).state).state).1 := rfl

/-- Button 1 handling when no debounced edge is accepted. -/
theorem button1_phase_idle {o : Bool} {t : ℤ} {b1 : Bool} {s : CState}
    (h : falling_accept b1 s.button1_last_state t s.last_button1_time = false) :
    button1_phase o t b1 s =
      ⟨{ s with button1_last_state := b1 }, false, false⟩ := by
  rw [button1_phase, if_neg (by simp [h])]

/-- Button 1 handling on an accepted press while the display is awake:
the effect advances and the strip is cleared. -/
theorem button1_phase_acted {o : Bool} {t : ℤ} {b1 : Bool} {s : CState}
    (h : falling_accept b1 s.button1_last_state t s.last_button1_time = true)
    (hs : s.display_sleeping = false) :
    button1_phase o t b1 s =
      ⟨{ s with current_effect := (s.current_effect + 1) % effect_names.length,
                strip := clear_strip, last_activity_time := t, last_button1_time := t,
                button1_last_state := b1 }, false, true⟩ := by
  rw [button1_phase, if_pos h, if_neg (by simp [hs])]

/-- Button 1 handling on an accepted press while the display is asleep
(display attached): wake-only, no effect change. -/
theorem button1_phase_wake {t : ℤ} {b1 : Bool} {s : CState}
    (h : falling_accept b1 s.button1_last_state t s.last_button1_time = true)
    (hs : s.display_sleeping = true) :
    button1_phase true t b1 s =
      ⟨{ s with display_sleeping := false, last_activity_time := t, last_button1_time := t,
                button1_last_state := b1 }, true, false⟩ := by
  rw [button1_phase, if_pos h, if_pos hs, display_wake_fn, if_neg (by simp)]
  simp [hs]

/-- Button 2 handling when no debounced edge is accepted. -/
theorem button2_phase_idle {o : Bool} {t : ℤ} {b2 : Bool} {s : CState}
    (h : falling_accept b2 s.button2_last_state t s.last_button2_time = false) :
    button2_phase o t b2 s =
      ⟨{ s with button2_last_state := b2 }, false, false⟩ := by
  rw [button2_phase, if_neg (by simp [h])]

/-- Button 2 handling on an accepted press while the display is awake:
the color advances; the strip is untouched. -/
theorem button2_phase_acted {o : Bool} {t : ℤ} {b2 : Bool} {s : CState}
    (h : falling_accept b2 s.button2_last_state t s.last_button2_time = true)
    (hs : s.display_sleeping = false) :
    button2_phase o t b2 s =
      ⟨{ s with current_color_index := (s.current_color_index + 1) % colors.length,
                last_activity_time := t, last_button2_time := t,
                button2_last_state := b2 }, false, true⟩ := by
  rw [button2_phase, if_pos h, if_neg (by simp [hs])]

/-- Button 2 handling on an accepted press while the display is asleep
(display attached): wake-only, no color change. -/
theorem button2_phase_wake {t : ℤ} {b2 : Bool} {s : CState}
    (h : falling_accept b2 s.button2_last_state t s.last_button2_time = true)
    (hs : s.display_sleeping = true) :
    button2_phase true t b2 s =
      ⟨{ s with display_sleeping := false, last_activity_time := t, last_button2_time := t,
                button2_last_state := b2 }, true, false⟩ := by
  rw [button2_phase, if_pos h, if_pos hs, display_wake_fn, if_neg (by simp)]
  simp [hs]

/-- The timeout check does nothing when its guard is false. -/
theorem timeout_phase_idle {o : Bool} {t : ℤ} {s : CState}
    (h : ((!s.display_sleeping) && o
        && decide (t - s.last_activity_time > DISPLAY_TIMEOUT)) = false) :
    timeout_phase o t s = (s, false) := by
  rw [timeout_phase, if_neg (by simp [h])]

/-- The timeout check performs exactly one Sleep transition when the
display is awake, attached, and inactive for more than the timeout. -/
theorem timeout_phase_sleeps {t : ℤ} {s : CState}
    (hs : s.display_sleeping = false)
    (h : t - s.last_activity_time > DISPLAY_TIMEOUT) :
    timeout_phase true t s = ({ s with display_sleeping := true }, true) := by
  rw [timeout_phase, if_pos (by simp [hs, h]), display_sleep_fn, if_neg (by simp [hs])]

/-- After an accepted press stamped `last_activity_time = t`, the
timeout check at tick `t` never fires. -/
theorem timeout_phase_after_activity {o : Bool} {t : ℤ} {s : CState}
    (h : s.last_activity_time = t) : timeout_phase o t s = (s, false) := by
  apply timeout_phase_idle
  have hng : ¬ (t - s.last_activity_time > DISPLAY_TIMEOUT) := by
    rw [h]
    simp only [DISPLAY_TIMEOUT]
    omega
  simp [hng]

/-! ## Claim C4: simultaneous presses -/

/-- The state used to exhibit a simultaneous press of both buttons while
the display is awake. -/
def dual_press_state : CState :=
  { button1_last_state := true, button2_last_state := true,
    last_button1_time := 0, last_button2_time := 0,
    last_activity_time := 900, display_sleeping := false,
    current_effect := 0, current_color_index := 0, strip := [] }

/-- **C4** counterexample: when both buttons present debounce-accepted
falling edges in the same `check_buttons` call (display awake), the code
performs *both* actions — the effect change and the color change — in
that one invocation, contradicting the claim that only Button1's action
fires. -/
theorem both_buttons_same_tick_both_actions_fire :
    (check_buttons_fn true 1000 false false dual_press_state).accepted1 = true ∧
    (check_buttons_fn true 1000 false false dual_press_state).accepted2 = true ∧
    (check_buttons_fn true 1000 false false dual_press_state).effect_changed = true ∧
    (check_buttons_fn true 1000 false false dual_press_state).color_changed = true ∧
    (check_buttons_fn true 1000 false false dual_press_state).state.current_effect = 1 ∧
    (check_buttons_fn true 1000 false false dual_press_state).state.current_color_index = 1 := by
  decide

/-- **C4** (amended): `check_buttons` checks Button1 first, but does
*not* suppress Button2: when both buttons present debounce-accepted
falling edges in the same invocation while the display is awake, both
the effect-change and the color-change actions are performed in that
call, and the single boolean return value reports a press. -/
theorem dual_press_behavior (o : Bool) (t : ℤ) (s : CState)
    (hs : s.display_sleeping = false)
    (h1 : falling_accept false s.button1_last_state t s.last_button1_time = true)
    (h2 : falling_accept false s.button2_last_state t s.last_button2_time = true) :
    (check_buttons_fn o t false false s).accepted1 = true ∧
    (check_buttons_fn o t false false s).accepted2 = true ∧
    (check_buttons_fn o t false false s).effect_changed = true ∧
    (check_buttons_fn o t false false s).color_changed = true ∧
    (check_buttons_fn o t false false s).button_pressed = true ∧
    (check_buttons_fn o t false false s).state.current_effect =
      (s.current_effect + 1) % effect_names.length ∧
    (check_buttons_fn o t false false s).state.current_color_index =
      (s.current_color_index + 1) % colors.length := by
  have hp1 := button1_phase_acted (o := o) h1 hs
  have hp2 := @button2_phase_acted o t false (button1_phase o t false s).state
    (by rw [hp1]; exact h2) (by rw [hp1]; exact hs)
  have hq := timeout_phase_after_activity (o := o) (t := t)
    (s := (button2_phase o t false (button1_phase o t false s).state).state)
    (by rw [hp2, hp1])
  refine ⟨h1, ?_, ?_, ?_, ?_, ?_, ?_⟩
  · rw [accepted2_eq, hp1]
    exact h2
  · rw [effect_changed_eq, hp1]
  · rw [color_changed_eq, hp2]
  · show (falling_accept false s.button1_last_state t s.last_button1_time || _) = true
    rw [h1, Bool.true_or]
  · rw [state_eq, hq, hp2, hp1]
  · rw [state_eq, hq, hp2, hp1]

/-- **C4** witness: the dual-press behavior at tick 1000 starting from
`dual_press_state` with no display attached. -/
theorem dual_press_behavior_witness :
    (check_buttons_fn false 1000 false false dual_press_state).accepted1 = true ∧
    (check_buttons_fn false 1000 false false dual_press_state).accepted2 = true ∧
    (check_buttons_fn false 1000 false false dual_press_state).effect_changed = true ∧
    (check_buttons_fn false 1000 false false dual_press_state).color_changed = true ∧
    (check_buttons_fn false 1000 false false dual_press_state).button_pressed = true ∧
    (check_buttons_fn false 1000 false false dual_press_state).state.current_effect =
      (dual_press_state.current_effect + 1) % effect_names.length ∧
    (check_buttons_fn false 1000 false false dual_press_state).state.current_color_index =
      (dual_press_state.current_color_index + 1) % colors.length :=
  dual_press_behavior false 1000 dual_press_state rfl (by decide) (by decide)

/-! ## Field-preservation lemmas -/

theorem button2_phase_preserves_b1 (o : Bool) (t : ℤ) (b2 : Bool) (s : CState) :
    (button2_phase o t b2 s).state.button1_last_state = s.button1_last_state ∧
    (button2_phase o t b2 s).state.last_button1_time = s.last_button1_time := by
  simp only [button2_phase, display_wake_fn]
  split
  · split
    · split <;> exact ⟨rfl, rfl⟩
    · exact ⟨rfl, rfl⟩
  · exact ⟨rfl, rfl⟩

theorem button2_phase_preserves_strip (o : Bool) (t : ℤ) (b2 : Bool) (s : CState) :
    (button2_phase o t b2 s).state.strip = s.strip := by
  simp only [button2_phase, display_wake_fn]
  split
  · split
    · split <;> rfl
    · rfl
  · rfl

theorem timeout_phase_preserves (o : Bool) (t : ℤ) (s : CState) :
    (timeout_phase o t s).1.button1_last_state = s.button1_last_state ∧
    (timeout_phase o t s).1.last_button1_time = s.last_button1_time ∧
    (timeout_phase o t s).1.strip = s.strip ∧
    (timeout_phase o t s).1.current_effect = s.current_effect ∧
    (timeout_phase o t s).1.current_color_index = s.current_color_index ∧
    (timeout_phase o t s).1.button2_last_state = s.button2_last_state ∧
    (timeout_phase o t s).1.last_button2_time = s.last_button2_time := by
  simp only [timeout_phase, display_sleep_fn]
  split
  · split <;> exact ⟨rfl, rfl, rfl, rfl, rfl, rfl, rfl⟩
  · exact ⟨rfl, rfl, rfl, rfl, rfl, rfl, rfl⟩

theorem check_buttons_b1_fields (o : Bool) (t : ℤ) (b1 b2 : Bool) (s : CState) :
    (check_buttons_fn o t b1 b2 s).state.button1_last_state =
      (button1_phase o t b1 s).state.button1_last_state ∧
    (check_buttons_fn o t b1 b2 s).state.last_button1_time =
      (button1_phase o t b1 s).state.last_button1_time := by
  rw [state_eq]
  have h2 := button2_phase_preserves_b1 o t b2 (button1_phase o t b1 s).state
  have h3 := timeout_phase_preserves o t
    (button2_phase o t b2 (button1_phase o t b1 s).state).state
  exact ⟨h3.1.trans h2.1, h3.2.1.trans h2.2⟩

/-- An accepted Button 1 press stamps the debounce timer and records the
raw level, in both the wake and the action branches. -/
theorem button1_phase_accept_fields {o : Bool} {t : ℤ} {b1 : Bool} {s : CState}
    (h : falling_accept b1 s.button1_last_state t s.last_button1_time = true) :
    (button1_phase o t b1 s).state.last_button1_time = t ∧
    (button1_phase o t b1 s).state.button1_last_state = b1 := by
  rw [button1_phase, if_pos h]
  split <;> exact ⟨rfl, rfl⟩

/-- Button 1 handling never touches Button 2's debounce fields, in any
branch. -/
theorem button1_phase_preserves_b2 (o : Bool) (t : ℤ) (b1 : Bool) (s : CState) :
    (button1_phase o t b1 s).state.button2_last_state = s.button2_last_state ∧
    (button1_phase o t b1 s).state.last_button2_time = s.last_button2_time := by
  simp only [button1_phase, display_wake_fn]
  split
  · split
    · split <;> exact ⟨rfl, rfl⟩
    · exact ⟨rfl, rfl⟩
  · exact ⟨rfl, rfl⟩

theorem check_buttons_b2_fields (o : Bool) (t : ℤ) (b1 b2 : Bool) (s : CState) :
    (check_buttons_fn o t b1 b2 s).state.button2_last_state =
      (button2_phase o t b2 (button1_phase o t b1 s).state).state.button2_last_state ∧
    (check_buttons_fn o t b1 b2 s).state.last_button2_time =
      (button2_phase o t b2 (button1_phase o t b1 s).state).state.last_button2_time := by
  rw [state_eq]
  have h3 := timeout_phase_preserves o t
    (button2_phase o t b2 (button1_phase o t b1 s).state).state
  exact ⟨h3.2.2.2.2.2.1, h3.2.2.2.2.2.2⟩

/-- An accepted Button 2 press stamps the debounce timer and records the
raw level, in both the wake and the action branches. -/
theorem button2_phase_accept_fields {o : Bool} {t : ℤ} {b2 : Bool} {s : CState}
    (h : falling_accept b2 s.button2_last_state t s.last_button2_time = true) :
    (button2_phase o t b2 s).state.last_button2_time = t ∧
    (button2_phase o t b2 s).state.button2_last_state = b2 := by
  rw [button2_phase, if_pos h]
  split <;> exact ⟨rfl, rfl⟩

/-! ## Claim C5: debouncing -/

/-- The state used to exhibit the debounce boundary: the previous
accepted event on each button was at tick 800. -/
def edge200_state : CState :=
  { button1_last_state := true, button2_last_state := true,
    last_button1_time := 800, last_button2_time := 800,
    last_activity_time := 900, display_sleeping := false,
    current_effect := 0, current_color_index := 0, strip := [] }

/-- **C5** counterexample: on either button, a falling edge arriving
when exactly 200 ms ("at least 200 ms") have elapsed since that button's
last accepted event is *rejected*: the code requires strictly more than
`debounce_delay` on both paths. -/
theorem edge_at_exactly_200ms_rejected :
    (1000 : ℤ) - edge200_state.last_button1_time = debounce_delay ∧
    (1000 : ℤ) - edge200_state.last_button2_time = debounce_delay ∧
    (check_buttons_fn true 1000 false false edge200_state).accepted1 = false ∧
    (check_buttons_fn true 1000 false false edge200_state).accepted2 = false ∧
    (check_buttons_fn true 1000 false false edge200_state).button_pressed = false ∧
    (check_buttons_fn true 1000 false false edge200_state).effect_changed = false ∧
    (check_buttons_fn true 1000 false false edge200_state).color_changed = false := by
  decide

/-- **C5** (amended): for each button, a press event is accepted iff the
raw sample shows a falling edge (previous sample high, current low) and
*strictly more than* 200 ms have elapsed since that button's last
accepted event; consequently, on either button, when an accepted falling
edge is followed (after a release sample) by a second falling edge at
most 200 ms after the first, the second edge is rejected — exactly one
of the two edges is accepted. -/
theorem debounce_accept_iff_and_single (o : Bool) (t1 t2 t3 u1 u2 u3 : ℤ)
    (b2a b2b b2c b1a b1b b1c : Bool) (s r : CState)
    (hlast : s.button1_last_state = true)
    (hdeb : t1 - s.last_button1_time > debounce_delay)
    (hsep : t3 - t1 ≤ debounce_delay)
    (hlast2 : r.button2_last_state = true)
    (hdeb2 : u1 - r.last_button2_time > debounce_delay)
    (hsep2 : u3 - u1 ≤ debounce_delay) :
    (∀ (t : ℤ) (b1 b2 : Bool) (s' : CState),
        (check_buttons_fn o t b1 b2 s').accepted1 = true ↔
          b1 = false ∧ s'.button1_last_state = true ∧
            t - s'.last_button1_time > debounce_delay) ∧
    (∀ (t : ℤ) (b1 b2 : Bool) (s' : CState),
        (check_buttons_fn o t b1 b2 s').accepted2 = true ↔
          b2 = false ∧ s'.button2_last_state = true ∧
            t - s'.last_button2_time > debounce_delay) ∧
    ((check_buttons_fn o t1 false b2a s).accepted1 = true ∧
     (check_buttons_fn o t3 false b2c
       (check_buttons_fn o t2 true b2b
         (check_buttons_fn o t1 false b2a s).state).state).accepted1 = false) ∧
    ((check_buttons_fn o u1 b1a false r).accepted2 = true ∧
     (check_buttons_fn o u3 b1c false
       (check_buttons_fn o u2 b1b true
         (check_buttons_fn o u1 b1a false r).state).state).accepted2 = false) := by
  have hacc1 : falling_accept false s.button1_last_state t1 s.last_button1_time = true := by
    rw [falling_accept, hlast]
    simp [hdeb]
  have hacc1r : falling_accept false r.button2_last_state u1 r.last_button2_time = true := by
    rw [falling_accept, hlast2]
    simp [hdeb2]
  refine ⟨?_, ?_, ⟨hacc1, ?_⟩, ⟨?_, ?_⟩⟩
  · intro t b1 b2 s'
    rw [accepted1_eq, falling_accept]
    simp [Bool.and_eq_true, Bool.not_eq_true', decide_eq_true_eq, and_assoc]
  · intro t b1 b2 s'
    rw [accepted2_eq, (button1_phase_preserves_b2 o t b1 s').1,
        (button1_phase_preserves_b2 o t b1 s').2, falling_accept]
    simp [Bool.and_eq_true, Bool.not_eq_true', decide_eq_true_eq, and_assoc]
  · have e1 := check_buttons_b1_fields o t1 false b2a s
    have f1 := button1_phase_accept_fields (o := o) hacc1
    have ht1 : (check_buttons_fn o t1 false b2a s).state.last_button1_time = t1 :=
      e1.2.trans f1.1
    have hacc2 : falling_accept true
        (check_buttons_fn o t1 false b2a s).state.button1_last_state t2
        (check_buttons_fn o t1 false b2a s).state.last_button1_time = false := by
      rw [falling_accept]
      simp
    have e2 := check_buttons_b1_fields o t2 true b2b (check_buttons_fn o t1 false b2a s).state
    have f2 := button1_phase_idle (o := o) hacc2
    have ht2 : (check_buttons_fn o t2 true b2b
        (check_buttons_fn o t1 false b2a s).state).state.last_button1_time = t1 := by
      rw [e2.2, f2]
      exact ht1
    have hb2 : (check_buttons_fn o t2 true b2b
        (check_buttons_fn o t1 false b2a s).state).state.button1_last_state = true := by
      rw [e2.1, f2]
    rw [accepted1_eq, hb2, ht2, falling_accept]
    have hng : ¬ (t3 - t1 > debounce_delay) := by omega
    simp [hng]
  · rw [accepted2_eq, (button1_phase_preserves_b2 o u1 b1a r).1,
        (button1_phase_preserves_b2 o u1 b1a r).2]
    exact hacc1r
  · have g1 : falling_accept false
        (button1_phase o u1 b1a r).state.button2_last_state u1
        (button1_phase o u1 b1a r).state.last_button2_time = true := by
      rw [(button1_phase_preserves_b2 o u1 b1a r).1,
          (button1_phase_preserves_b2 o u1 b1a r).2]
      exact hacc1r
    have e1 := check_buttons_b2_fields o u1 b1a false r
    have f1 := button2_phase_accept_fields (o := o) g1
    have hu1 : (check_buttons_fn o u1 b1a false r).state.last_button2_time = u1 :=
      e1.2.trans f1.1
    have g2 : falling_accept true
        (button1_phase o u2 b1b
          (check_buttons_fn o u1 b1a false r).state).state.button2_last_state u2
        (button1_phase o u2 b1b
          (check_buttons_fn o u1 b1a false r).state).state.last_button2_time = false := by
      rw [falling_accept]
      simp
    have e2 := check_buttons_b2_fields o u2 b1b true (check_buttons_fn o u1 b1a false r).state
    have f2 := button2_phase_idle (o := o) g2
    have hu2 : (check_buttons_fn o u2 b1b true
        (check_buttons_fn o u1 b1a false r).state).state.last_button2_time = u1 := by
      rw [e2.2, f2,
          (button1_phase_preserves_b2 o u2 b1b (check_buttons_fn o u1 b1a false r).state).2]
      exact hu1
    have hb2 : (check_buttons_fn o u2 b1b true
        (check_buttons_fn o u1 b1a false r).state).state.button2_last_state = true := by
      rw [e2.1, f2]
    rw [accepted2_eq,
        (button1_phase_preserves_b2 o u3 b1c (check_buttons_fn o u2 b1b true
          (check_buttons_fn o u1 b1a false r).state).state).1,
        (button1_phase_preserves_b2 o u3 b1c (check_buttons_fn o u2 b1b true
          (check_buttons_fn o u1 b1a false r).state).state).2,
        hb2, hu2, falling_accept]
    have hng : ¬ (u3 - u1 > debounce_delay) := by omega
    simp [hng]

/-- The fresh state used to exercise the debounce scenarios. -/
def debounce_state : CState :=
  { button1_last_state := true, button2_last_state := true,
    last_button1_time := 0, last_button2_time := 0,
    last_activity_time := 900, display_sleeping := false,
    current_effect := 3, current_color_index := 2, strip := [] }

/-- **C5** witness: on each button, an accepted edge at tick 1000
followed by a release at 1100 and a second edge at 1150 (150 ms after
the first): only the first edge is accepted. -/
theorem debounce_accept_iff_and_single_witness :
    ((check_buttons_fn true 1000 false true debounce_state).accepted1 = true ∧
     (check_buttons_fn true 1150 false true
       (check_buttons_fn true 1100 true true
         (check_buttons_fn true 1000 false true debounce_state).state).state).accepted1
       = false) ∧
    ((check_buttons_fn true 1000 true false debounce_state).accepted2 = true ∧
     (check_buttons_fn true 1150 true false
       (check_buttons_fn true 1100 true true
         (check_buttons_fn true 1000 true false debounce_state).state).state).accepted2
       = false) :=
  ⟨(debounce_accept_iff_and_single true 1000 1100 1150 1000 1100 1150
      true true true true true true debounce_state debounce_state
      rfl (by decide) (by decide) rfl (by decide) (by decide)).2.2.1,
   (debounce_accept_iff_and_single true 1000 1100 1150 1000 1100 1150
      true true true true true true debounce_state debounce_state
      rfl (by decide) (by decide) rfl (by decide) (by decide)).2.2.2⟩

/-! ## Claim C9: strip effects of the two press actions -/

/-- **C9** (confirmed): while the display is awake, an accepted Button 1
(effect-change) press leaves the strip all-zero at the end of the
`check_buttons` call — i.e. before the newly selected effect renders its
first frame, every strip entry is `(0, 0, 0)` — whereas an accepted
Button 2 (color-change) press with no simultaneous Button 1 press leaves
every strip entry unchanged while advancing the color index. -/
theorem press_actions_strip_effects (o : Bool) (t : ℤ) (b2 : Bool) (s : CState)
    (hs : s.display_sleeping = false) :
    (falling_accept false s.button1_last_state t s.last_button1_time = true →
      (check_buttons_fn o t false b2 s).state.strip = clear_strip ∧
      (check_buttons_fn o t false b2 s).effect_changed = true) ∧
    (∀ b1 : Bool,
      falling_accept b1 s.button1_last_state t s.last_button1_time = false →
      falling_accept b2 s.button2_last_state t s.last_button2_time = true →
      (check_buttons_fn o t b1 b2 s).state.strip = s.strip ∧
      (check_buttons_fn o t b1 b2 s).color_changed = true) := by
  constructor
  · intro h1
    have hp1 := button1_phase_acted (o := o) h1 hs
    constructor
    · rw [state_eq,
          (timeout_phase_preserves o t
            (button2_phase o t b2 (button1_phase o t false s).state).state).2.2.1,
          button2_phase_preserves_strip, hp1]
    · rw [effect_changed_eq, hp1]
  · intro b1 h1 h2
    have hp1 := button1_phase_idle (o := o) h1
    have hp2 := @button2_phase_acted o t b2 (button1_phase o t b1 s).state
      (by rw [hp1]; exact h2) (by rw [hp1]; exact hs)
    constructor
    · rw [state_eq,
          (timeout_phase_preserves o t
            (button2_phase o t b2 (button1_phase o t b1 s).state).state).2.2.1,
          button2_phase_preserves_strip, hp1]
    · rw [color_changed_eq, hp2]

/-- The awake state used to exercise the press actions, with a non-empty
strip content to make preservation observable. -/
def press_state : CState :=
  { button1_last_state := true, button2_last_state := true,
    last_button1_time := 0, last_button2_time := 0,
    last_activity_time := 900, display_sleeping := false,
    current_effect := 2, current_color_index := 5, strip := [(1, 2, 3), (4, 5, 6)] }

/-- **C9** witness: an effect-change press at tick 1000 clears the strip;
a color-change press (Button 1 raw high) leaves the two-entry strip
untouched. -/
theorem press_actions_strip_effects_witness :
    ((check_buttons_fn true 1000 false true press_state).state.strip = clear_strip ∧
     (check_buttons_fn true 1000 false true press_state).effect_changed = true) ∧
    ((check_buttons_fn true 1000 true false press_state).state.strip = press_state.strip ∧
     (check_buttons_fn true 1000 true false press_state).color_changed = true) :=
  ⟨(press_actions_strip_effects true 1000 true press_state rfl).1 (by decide),
   (press_actions_strip_effects true 1000 false press_state rfl).2 true
     (by decide) (by decide)⟩

/-! ## Claim C2: display sleep and wake transitions -/

/-- An accepted Button 1 press while asleep with no display attached:
`display_wake` returns early (the sleeping flag survives), but the
timers are still stamped and the press is still consumed. -/
theorem button1_phase_wake_absent {t : ℤ} {b1 : Bool} {s : CState}
    (h : falling_accept b1 s.button1_last_state t s.last_button1_time = true)
    (hs : s.display_sleeping = true) :
    button1_phase false t b1 s =
      ⟨{ s with last_activity_time := t, last_button1_time := t,
                button1_last_state := b1 }, false, false⟩ := by
  rw [button1_phase, if_pos h, if_pos hs, display_wake_fn, if_pos rfl]

/-- Same for Button 2. -/
theorem button2_phase_wake_absent {t : ℤ} {b2 : Bool} {s : CState}
    (h : falling_accept b2 s.button2_last_state t s.last_button2_time = true)
    (hs : s.display_sleeping = true) :
    button2_phase false t b2 s =
      ⟨{ s with last_activity_time := t, last_button2_time := t,
                button2_last_state := b2 }, false, false⟩ := by
  rw [button2_phase, if_pos h, if_pos hs, display_wake_fn, if_pos rfl]

/-- The asleep state used to exhibit the simultaneous-press exception to
the wake-only rule. -/
def asleep_state : CState :=
  { button1_last_state := true, button2_last_state := true,
    last_button1_time := 0, last_button2_time := 0,
    last_activity_time := 0, display_sleeping := true,
    current_effect := 0, current_color_index := 0, strip := [] }

/-- **C2** counterexample: when *both* buttons present debounce-accepted
falling edges in the same `check_buttons` call while the display is
asleep, Button 1's press wakes the display first, and Button 2's press —
which also arrived while the display was asleep — is *not* consumed as a
wake: it performs its normal color-change action in that very call. -/
theorem dual_press_while_asleep_fires_color_action :
    asleep_state.display_sleeping = true ∧
    (check_buttons_fn true 1000 false false asleep_state).accepted2 = true ∧
    (check_buttons_fn true 1000 false false asleep_state).wake1 = true ∧
    (check_buttons_fn true 1000 false false asleep_state).wake2 = false ∧
    (check_buttons_fn true 1000 false false asleep_state).color_changed = true ∧
    (check_buttons_fn true 1000 false false asleep_state).state.current_color_index = 1 := by
  decide

/-- **C2** (amended): with the display present: (i) when the display is
awake, no press is accepted and more than 30000 ms have elapsed since
`last_activity_time`, the call performs a Sleep transition; (ii) while
the display is asleep no further Sleep transition ever fires (so the
Sleep of (i) is the only one); (iii)/(iv) a single debounced press on
either button while asleep performs exactly one Wake transition — power
on, activity timer reset to now — and is consumed without its normal
effect- or color-change action; (v) *exception*: when both buttons present
accepted edges in the same call while asleep, Button 1's press wakes the
display and Button 2's press performs its normal color-change action in
that same call. -/
theorem sleep_wake_transitions (t : ℤ) (b1 b2 : Bool) (s : CState) :
    (s.display_sleeping = false →
     falling_accept b1 s.button1_last_state t s.last_button1_time = false →
     falling_accept b2 s.button2_last_state t s.last_button2_time = false →
     t - s.last_activity_time > DISPLAY_TIMEOUT →
     (check_buttons_fn true t b1 b2 s).did_sleep = true ∧
     (check_buttons_fn true t b1 b2 s).state.display_sleeping = true) ∧
    (∀ o : Bool, s.display_sleeping = true →
      (check_buttons_fn o t b1 b2 s).did_sleep = false) ∧
    (s.display_sleeping = true →
     falling_accept b1 s.button1_last_state t s.last_button1_time = true →
     falling_accept b2 s.button2_last_state t s.last_button2_time = false →
     (check_buttons_fn true t b1 b2 s).wake1 = true ∧
     (check_buttons_fn true t b1 b2 s).effect_changed = false ∧
     (check_buttons_fn true t b1 b2 s).color_changed = false ∧
     (check_buttons_fn true t b1 b2 s).state.display_sleeping = false ∧
     (check_buttons_fn true t b1 b2 s).state.last_activity_time = t ∧
     (check_buttons_fn true t b1 b2 s).state.current_effect = s.current_effect ∧
     (check_buttons_fn true t b1 b2 s).state.current_color_index = s.current_color_index) ∧
    (s.display_sleeping = true →
     falling_accept b1 s.button1_last_state t s.last_button1_time = false →
     falling_accept b2 s.button2_last_state t s.last_button2_time = true →
     (check_buttons_fn true t b1 b2 s).wake2 = true ∧
     (check_buttons_fn true t b1 b2 s).effect_changed = false ∧
     (check_buttons_fn true t b1 b2 s).color_changed = false ∧
     (check_buttons_fn true t b1 b2 s).state.display_sleeping = false ∧
     (check_buttons_fn true t b1 b2 s).state.last_activity_time = t ∧
     (check_buttons_fn true t b1 b2 s).state.current_effect = s.current_effect ∧
     (check_buttons_fn true t b1 b2 s).state.current_color_index = s.current_color_index) ∧
    (s.display_sleeping = true →
     falling_accept b1 s.button1_last_state t s.last_button1_time = true →
     falling_accept b2 s.button2_last_state t s.last_button2_time = true →
     (check_buttons_fn true t b1 b2 s).wake1 = true ∧
     (check_buttons_fn true t b1 b2 s).wake2 = false ∧
     (check_buttons_fn true t b1 b2 s).effect_changed = false ∧
     (check_buttons_fn true t b1 b2 s).color_changed = true ∧
     (check_buttons_fn true t b1 b2 s).state.display_sleeping = false ∧
     (check_buttons_fn true t b1 b2 s).state.current_color_index =
       (s.current_color_index + 1) % colors.length) := by
  refine ⟨?_, ?_, ?_, ?_, ?_⟩
  · intro hs h1 h2 hidle
    have hp1 := button1_phase_idle (o := true) h1
    have hp2 := @button2_phase_idle true t b2 (button1_phase true t b1 s).state
      (by rw [hp1]; exact h2)
    have htp := timeout_phase_sleeps (t := t)
      (s := (button2_phase true t b2 (button1_phase true t b1 s).state).state)
      (by rw [hp2, hp1]; exact hs) (by rw [hp2, hp1]; exact hidle)
    exact ⟨by rw [did_sleep_eq, htp], by rw [state_eq, htp]⟩
  · intro o hs
    cases o with
    | false => rw [did_sleep_eq, timeout_phase_idle (by simp)]
    | true =>
        cases hacc1 : falling_accept b1 s.button1_last_state t s.last_button1_time with
        | true =>
            have hp1 := button1_phase_wake hacc1 hs
            cases hacc2 : falling_accept b2
                (button1_phase true t b1 s).state.button2_last_state t
                (button1_phase true t b1 s).state.last_button2_time with
            | true =>
                have hp2 := button2_phase_acted (o := true) hacc2 (by rw [hp1])
                rw [did_sleep_eq, timeout_phase_after_activity (by rw [hp2, hp1])]
            | false =>
                have hp2 := button2_phase_idle (o := true) hacc2
                rw [did_sleep_eq, timeout_phase_after_activity (by rw [hp2, hp1])]
        | false =>
            have hp1 := button1_phase_idle (o := true) hacc1
            cases hacc2 : falling_accept b2
                (button1_phase true t b1 s).state.button2_last_state t
                (button1_phase true t b1 s).state.last_button2_time with
            | true =>
                have hp2 := button2_phase_wake hacc2 (by rw [hp1]; exact hs)
                rw [did_sleep_eq, timeout_phase_after_activity (by rw [hp2])]
            | false =>
                have hp2 := button2_phase_idle (o := true) hacc2
                rw [did_sleep_eq, timeout_phase_idle ?_]
                rw [hp2, hp1]
                simp [hs]
  · intro hs h1 h2
    have hp1 := button1_phase_wake h1 hs
    have hp2 := @button2_phase_idle true t b2 (button1_phase true t b1 s).state
      (by rw [hp1]; exact h2)
    have hq := timeout_phase_after_activity (o := true) (t := t)
      (s := (button2_phase true t b2 (button1_phase true t b1 s).state).state)
      (by rw [hp2, hp1])
    exact ⟨by rw [wake1_eq, hp1], by rw [effect_changed_eq, hp1],
           by rw [color_changed_eq, hp2], by rw [state_eq, hq, hp2, hp1],
           by rw [state_eq, hq, hp2, hp1], by rw [state_eq, hq, hp2, hp1],
           by rw [state_eq, hq, hp2, hp1]⟩
  · intro hs h1 h2
    have hp1 := button1_phase_idle (o := true) h1
    have hp2 := @button2_phase_wake t b2 (button1_phase true t b1 s).state
      (by rw [hp1]; exact h2) (by rw [hp1]; exact hs)
    have hq := timeout_phase_after_activity (o := true) (t := t)
      (s := (button2_phase true t b2 (button1_phase true t b1 s).state).state)
      (by rw [hp2])
    exact ⟨by rw [wake2_eq, hp2], by rw [effect_changed_eq, hp1],
           by rw [color_changed_eq, hp2], by rw [state_eq, hq, hp2, hp1],
           by rw [state_eq, hq, hp2, hp1], by rw [state_eq, hq, hp2, hp1],
           by rw [state_eq, hq, hp2, hp1]⟩
  · intro hs h1 h2
    have hp1 := button1_phase_wake h1 hs
    have hp2 := @button2_phase_acted true t b2 (button1_phase true t b1 s).state
      (by rw [hp1]; exact h2) (by rw [hp1])
    have hq := timeout_phase_after_activity (o := true) (t := t)
      (s := (button2_phase true t b2 (button1_phase true t b1 s).state).state)
      (by rw [hp2, hp1])
    exact ⟨by rw [wake1_eq, hp1], by rw [wake2_eq, hp2],
           by rw [effect_changed_eq, hp1], by rw [color_changed_eq, hp2],
           by rw [state_eq, hq, hp2, hp1], by rw [state_eq, hq, hp2, hp1]⟩

/-- The awake, long-idle state used to exercise the Sleep transition. -/
def idle_state : CState :=
  { button1_last_state := true, button2_last_state := true,
    last_button1_time := 0, last_button2_time := 0,
    last_activity_time := 0, display_sleeping := false,
    current_effect := 4, current_color_index := 3, strip := [] }

/-- **C2** witness: 40 s of inactivity with no press performs the Sleep
transition; a lone Button 1 press at tick 1000 while asleep performs the
Wake transition and is consumed without changing effect or color. -/
theorem sleep_wake_transitions_witness :
    ((check_buttons_fn true 40000 true true idle_state).did_sleep = true ∧
     (check_buttons_fn true 40000 true true idle_state).state.display_sleeping = true) ∧
    ((check_buttons_fn true 1000 false true asleep_state).wake1 = true ∧
     (check_buttons_fn true 1000 false true asleep_state).effect_changed = false ∧
     (check_buttons_fn true 1000 false true asleep_state).color_changed = false ∧
     (check_buttons_fn true 1000 false true asleep_state).state.display_sleeping = false ∧
     (check_buttons_fn true 1000 false true asleep_state).state.last_activity_time = 1000 ∧
     (check_buttons_fn true 1000 false true asleep_state).state.current_effect =
       asleep_state.current_effect ∧
     (check_buttons_fn true 1000 false true asleep_state).state.current_color_index =
       asleep_state.current_color_index) :=
  ⟨(sleep_wake_transitions 40000 true true idle_state).1 rfl (by decide) (by decide)
     (by decide),
   (sleep_wake_transitions 1000 false true asleep_state).2.2.1 rfl (by decide) (by decide)⟩

/-! ## Claim C10: headless operation -/

/-- One `check_buttons` call with no display attached: the sleeping flag
stays down, no Sleep or Wake transition fires, and every accepted press
performs its normal action. -/
theorem no_display_step {t : ℤ} {b1 b2 : Bool} {s : CState}
    (hs : s.display_sleeping = false) :
    (check_buttons_fn false t b1 b2 s).state.display_sleeping = false ∧
    (check_buttons_fn false t b1 b2 s).did_sleep = false ∧
    (check_buttons_fn false t b1 b2 s).wake1 = false ∧
    (check_buttons_fn false t b1 b2 s).wake2 = false ∧
    ((check_buttons_fn false t b1 b2 s).accepted1 = true →
      (check_buttons_fn false t b1 b2 s).effect_changed = true) ∧
    ((check_buttons_fn false t b1 b2 s).accepted2 = true →
      (check_buttons_fn false t b1 b2 s).color_changed = true) := by
  have ht : ∀ X : CState, timeout_phase false t X = (X, false) := fun X =>
    timeout_phase_idle (by simp)
  have hds : (check_buttons_fn false t b1 b2 s).did_sleep = false := by
    rw [did_sleep_eq, ht]
  cases hacc1 : falling_accept b1 s.button1_last_state t s.last_button1_time with
  | true =>
      have hp1 := button1_phase_acted (o := false) hacc1 hs
      cases hacc2 : falling_accept b2
          (button1_phase false t b1 s).state.button2_last_state t
          (button1_phase false t b1 s).state.last_button2_time with
      | true =>
          have hp2 := button2_phase_acted (o := false) hacc2 (by rw [hp1]; exact hs)
          exact ⟨by rw [state_eq, ht, hp2, hp1]; exact hs, hds,
                 by rw [wake1_eq, hp1], by rw [wake2_eq, hp2],
                 fun _ => by rw [effect_changed_eq, hp1],
                 fun _ => by rw [color_changed_eq, hp2]⟩
      | false =>
          have hp2 := button2_phase_idle (o := false) hacc2
          refine ⟨by rw [state_eq, ht, hp2, hp1]; exact hs, hds,
                 by rw [wake1_eq, hp1], by rw [wake2_eq, hp2],
                 fun _ => by rw [effect_changed_eq, hp1], fun hc => ?_⟩
          rw [accepted2_eq, hacc2] at hc
          simp at hc
  | false =>
      have hp1 := button1_phase_idle (o := false) hacc1
      cases hacc2 : falling_accept b2
          (button1_phase false t b1 s).state.button2_last_state t
          (button1_phase false t b1 s).state.last_button2_time with
      | true =>
          have hp2 := button2_phase_acted (o := false) hacc2 (by rw [hp1]; exact hs)
          refine ⟨by rw [state_eq, ht, hp2, hp1]; exact hs, hds,
                 by rw [wake1_eq, hp1], by rw [wake2_eq, hp2],
                 fun hc => ?_, fun _ => by rw [color_changed_eq, hp2]⟩
          rw [accepted1_eq, hacc1] at hc
          simp at hc
      | false =>
          have hp2 := button2_phase_idle (o := false) hacc2
          refine ⟨by rw [state_eq, ht, hp2, hp1]; exact hs, hds,
                 by rw [wake1_eq, hp1], by rw [wake2_eq, hp2],
                 fun hc => ?_, fun hc => ?_⟩
          · rw [accepted1_eq, hacc1] at hc
            simp at hc
          · rw [accepted2_eq, hacc2] at hc
            simp at hc

/-- With no display attached, the sleeping flag stays down across any
input trace. -/
theorem no_display_run : ∀ (s : CState), s.display_sleeping = false →
    ∀ inputs : List (ℤ × Bool × Bool),
      (run_checks false s inputs).display_sleeping = false
  | _, hs, [] => hs
  | _, hs, (_, _, _) :: rest => no_display_run _ (no_display_step hs).1 rest

/-- **C10** (confirmed): when no display is attached (`oled is None`),
starting from the initial `display_sleeping = False`, the sleeping flag
stays `False` after any single `check_buttons` call and across any input
trace; no Sleep and no Wake transition ever fires, so no press is ever
consumed as wake-only: every accepted press performs its normal effect-
or color-change action. -/
theorem no_display_no_sleep (t : ℤ) (b1 b2 : Bool) (s : CState)
    (hs : s.display_sleeping = false) :
    ((check_buttons_fn false t b1 b2 s).state.display_sleeping = false ∧
     (check_buttons_fn false t b1 b2 s).did_sleep = false ∧
     (check_buttons_fn false t b1 b2 s).wake1 = false ∧
     (check_buttons_fn false t b1 b2 s).wake2 = false ∧
     ((check_buttons_fn false t b1 b2 s).accepted1 = true →
       (check_buttons_fn false t b1 b2 s).effect_changed = true) ∧
     ((check_buttons_fn false t b1 b2 s).accepted2 = true →
       (check_buttons_fn false t b1 b2 s).color_changed = true)) ∧
    ∀ inputs : List (ℤ × Bool × Bool),
      (run_checks false s inputs).display_sleeping = false :=
  ⟨no_display_step hs, no_display_run s hs⟩

/-- The headless startup state. -/
def headless_state : CState :=
  { button1_last_state := true, button2_last_state := true,
    last_button1_time := 0, last_button2_time := 0,
    last_activity_time := 0, display_sleeping := false,
    current_effect := 0, current_color_index := 0, strip := [] }

/-- **C10** witness: a Button 1 press at tick 1000 and a long-idle tick
at 40000 with no display attached: the press acts normally and the
sleeping flag never rises. -/
theorem no_display_no_sleep_witness :
    ((check_buttons_fn false 1000 false true headless_state).state.display_sleeping = false ∧
     (check_buttons_fn false 1000 false true headless_state).did_sleep = false ∧
     (check_buttons_fn false 1000 false true headless_state).wake1 = false ∧
     (check_buttons_fn false 1000 false true headless_state).wake2 = false ∧
     ((check_buttons_fn false 1000 false true headless_state).accepted1 = true →
       (check_buttons_fn false 1000 false true headless_state).effect_changed = true) ∧
     ((check_buttons_fn false 1000 false true headless_state).accepted2 = true →
       (check_buttons_fn false 1000 false true headless_state).color_changed = true)) ∧
    (run_checks false headless_state
      [(1000, false, true), (40000, true, true)]).display_sleeping = false :=
  ⟨(no_display_no_sleep 1000 false true headless_state rfl).1,
   (no_display_no_sleep 1000 false true headless_state rfl).2
     [(1000, false, true), (40000, true, true)]⟩

/-- **C3** witness: the envelope bound applied to the first ramp-up
brightness (step 0). -/
theorem pulse_envelope_profile_witness :
    0 ≤ ((0 : ℚ) / 50) * (1 / 2) ∧ ((0 : ℚ) / 50) * (1 / 2) ≤ 1 / 2 :=
  pulse_envelope_profile.2.2.1 (((0 : ℚ) / 50) * (1 / 2))
    (List.mem_append_left _
      (List.mem_map.mpr ⟨0, List.mem_range.mpr (by norm_num), by norm_num⟩))
